import Mathlib

/-!
Verification of the speedtest exporter core (src/src/exporter.py): a shallow
embedding of runTest, is_json, bytes_to_bits and the /metrics handler
updateResults, together with theorems settling the specified properties of the
measurement-and-cache orchestration.

Modelling conventions:
- JSON numbers are exact rationals (the payload ints are exact, the decimal
  float literals appearing in the claims are exact, and multiplication by 8 is
  exact in IEEE doubles as well, being a power of two).
- datetime values are rationals (sub-second resolution); the two separate
  datetime.now() calls of updateResults appear as two explicit parameters.
- The number of child processes spawned by subprocess.check_output is tracked
  in an observation counter.
- Fallible Python evaluation is Except over the exception classes that the
  parsing code can raise.
-/

namespace SpeedtestExporter

/-- A JSON value as produced by Python json.loads: the payload domain of the
speedtest CLI output. An object models a Python dict (keys distinct after
json.loads). -/
inductive JVal where
  | jnull
  | jbool (b : Bool)
  | jnum (q : ℚ)
  | jstr (s : String)
  | jarr (elems : List JVal)
  | jobj (fields : List (String × JVal))

/-- Python exception classes that the code in runTest can raise while
examining the decoded payload. -/
inductive PyErr where
  | keyError
  | typeError
  | valueError
  | attributeError
deriving DecidableEq

/-- The 6-tuple returned by runTest: (server id, jitter, ping, download,
upload, status). Components are JSON values, since the Python code places
whatever it extracted into the tuple without further conversion. -/
structure TestResult where
  server : JVal
  jitter : JVal
  ping : JVal
  download : JVal
  upload : JVal
  status : JVal

/-- The zero tuple `(0, 0, 0, 0, 0, 0)` returned on every failure path of
runTest (the failed sentinel: all gauges zero, up = 0). -/
def sentinel : TestResult :=
  ⟨.jnum 0, .jnum 0, .jnum 0, .jnum 0, .jnum 0, .jnum 0⟩

/-- Python `v == s` for a str literal `s`: JSON values of any other type never
compare equal to a str. -/
def eqStr (v : JVal) (s : String) : Bool :=
  match v with
  | .jstr t => t == s
  | _ => false

/-- Occurrence of a character sequence inside another, for Python's substring
test `sub in str`. -/
def containsSub (needle : List Char) : List Char → Bool
  | [] => needle.isEmpty
  | c :: rest => needle.isPrefixOf (c :: rest) || containsSub needle rest

/-- Python `"error" in data` as used in runTest: key test on a dict, element
membership on a list, substring test on a str; all other values raise
TypeError (argument not iterable). -/
def pyContains (v : JVal) (s : String) : Except PyErr Bool :=
  match v with
  | .jobj fields => .ok (fields.any (fun p => p.1 == s))
  | .jarr elems => .ok (elems.any (fun e => eqStr e s))
  | .jstr t => .ok (containsSub s.data t.data)
  | _ => .error .typeError

/-- Lookup in a Python dict modelled as an association list with distinct
keys. -/
def pyLookup (fields : List (String × JVal)) (k : String) : Option JVal :=
  match fields with
  | [] => none
  | (k', v) :: rest => if k' == k then some v else pyLookup rest k

/-- Python subscription `v[k]` with a str key: dict lookup raising KeyError on
a missing key; lists reject str indices and strs, numbers, bools and None are
not subscriptable by a str (TypeError). -/
def pySub (v : JVal) (k : String) : Except PyErr JVal :=
  match v with
  | .jobj fields =>
    match pyLookup fields k with
    | some x => .ok x
    | none => .error .keyError
  | _ => .error .typeError

/-- Python `v.get(k)` as used for `data.get('type')`: only dicts have a `get`
method (defaulting to None); every other value raises AttributeError. -/
def pyGet (v : JVal) (k : String) : Except PyErr JVal :=
  match v with
  | .jobj fields =>
    match pyLookup fields k with
    | some x => .ok x
    | none => .ok .jnull
  | _ => .error .attributeError

/-- Whitespace accepted by Python `int(str)` around the digits. -/
def isSpaceChar (c : Char) : Bool :=
  c == ' ' || c == '\t' || c == '\n' || c == '\r'

/-- Drop leading whitespace from a character list. -/
def dropSpaces (cs : List Char) : List Char :=
  match cs with
  | [] => []
  | c :: rest => if isSpaceChar c then dropSpaces rest else c :: rest

/-- The numeric value of a decimal digit character. -/
def digitVal (c : Char) : Option ℕ :=
  if '0' ≤ c && c ≤ '9' then some (c.toNat - 48) else none

/-- A nonempty run of decimal digits as a natural number. -/
def parseDigits : List Char → Option ℕ
  | [] => none
  | [c] => digitVal c
  | c :: rest =>
    match digitVal c, parseDigits rest with
    | some d, some n => some (d * 10 ^ rest.length + n)
    | _, _ => none

/-- Python `int(s)` on a str: surrounding whitespace and an optional sign are
accepted around a nonempty run of decimal digits; anything else raises
ValueError. (Digit-group underscores are not modelled; no claim involves
them.) -/
def pyIntOfStr (s : String) : Option ℤ :=
  match dropSpaces (dropSpaces s.data.reverse).reverse with
  | '+' :: rest => (parseDigits rest).map (fun n => (n : ℤ))
  | '-' :: rest => (parseDigits rest).map (fun n => -(n : ℤ))
  | rest => (parseDigits rest).map (fun n => (n : ℤ))

/-- Python `int()` truncation of an exact numeric value toward zero. -/
def truncInt (q : ℚ) : ℤ :=
  Int.tdiv q.num (q.den : ℤ)

/-- Python `int(v)` on a JSON value: numbers truncate toward zero, bools
coerce to 0 or 1, strs parse as decimal integers or raise ValueError, and
None, lists and dicts raise TypeError. -/
def pyInt (v : JVal) : Except PyErr ℤ :=
  match v with
  | .jnum q => .ok (truncInt q)
  | .jbool b => .ok (if b then 1 else 0)
  | .jstr s =>
    match pyIntOfStr s with
    | some n => .ok n
    | none => .error .valueError
  | _ => .error .typeError

/-- bytes_to_bits from the source: `bytes_per_sec * 8`. Numbers (and bools)
multiply arithmetically; Python repeats sequences (strs and lists) when
multiplied by an int; None and dicts raise TypeError. -/
def bytes_to_bits (v : JVal) : Except PyErr JVal :=
  match v with
  | .jnum q => .ok (.jnum (q * 8))
  | .jbool b => .ok (.jnum ((if b then (1 : ℚ) else 0) * 8))
  | .jstr s => .ok (.jstr (String.join (List.replicate 8 s)))
  | .jarr elems => .ok (.jarr (List.flatten (List.replicate 8 elems)))
  | _ => .error .typeError

/-- The raw stdout captured from the speedtest child process, classified by
what json.loads does with it: empty output (falsy), nonempty output that is
not valid JSON, or output decoding to a JSON value. -/
inductive RawOut where
  | empty
  | invalid
  | valid (v : JVal)

/-- is_json from the source: empty (falsy) output returns False, output that
json.loads rejects returns False, decodable output returns True. -/
def is_json (raw : RawOut) : Bool :=
  match raw with
  | .empty => false
  | .invalid => false
  | .valid _ => true

/-- Outcome of the subprocess.check_output invocation of the speedtest CLI:
a wall-clock timeout (TimeoutExpired), a non-zero exit (CalledProcessError),
or captured stdout. -/
inductive ProbeOutcome where
  | timeout
  | calledProcessError
  | output (raw : RawOut)

/-- The result-tuple extraction of runTest for a payload whose type is
"result", in Python left-to-right evaluation order:
`(int(data['server']['id']), data['ping']['jitter'], data['ping']['latency'],
bytes_to_bits(data['download']['bandwidth']),
bytes_to_bits(data['upload']['bandwidth']), 1)`.
The first exception raised propagates. -/
def extractResult (data : JVal) : Except PyErr TestResult :=
  match pySub data "server" with
  | .error e => .error e
  | .ok serverObj =>
  match pySub serverObj "id" with
  | .error e => .error e
  | .ok idVal =>
  match pyInt idVal with
  | .error e => .error e
  | .ok serverId =>
  match pySub data "ping" with
  | .error e => .error e
  | .ok pingObj =>
  match pySub pingObj "jitter" with
  | .error e => .error e
  | .ok jitterVal =>
  match pySub pingObj "latency" with
  | .error e => .error e
  | .ok latencyVal =>
  match pySub data "download" with
  | .error e => .error e
  | .ok downloadObj =>
  match pySub downloadObj "bandwidth" with
  | .error e => .error e
  | .ok downloadBw =>
  match bytes_to_bits downloadBw with
  | .error e => .error e
  | .ok downloadBits =>
  match pySub data "upload" with
  | .error e => .error e
  | .ok uploadObj =>
  match pySub uploadObj "bandwidth" with
  | .error e => .error e
  | .ok uploadBw =>
  match bytes_to_bits uploadBw with
  | .error e => .error e
  | .ok uploadBits =>
    .ok ⟨.jnum (serverId : ℚ), jitterVal, latencyVal, downloadBits, uploadBits,
         .jnum 1⟩

/-- Body of the try block of runTest after json.loads succeeded: a payload
with an "error" member is a tool-reported domain error (zero tuple); only a
payload whose type equals "result" is extracted; any other type falls through
to the final zero-tuple return. Exceptions propagate to the surrounding
except clause. -/
def parseAttempt (data : JVal) : Except PyErr TestResult :=
  match pyContains data "error" with
  | .error e => .error e
  | .ok true => .ok sentinel
  | .ok false =>
  match pyGet data "type" with
  | .error e => .error e
  | .ok typeVal =>
    if eqStr typeVal "result" then extractResult data else .ok sentinel

/-- runTest from the source after the shutdown check: a timeout or a non-zero
exit of the CLI yields the zero tuple, non-JSON stdout yields the zero tuple,
otherwise the parse attempt runs and the except clause catches exactly
KeyError and TypeError (so ValueError and AttributeError escape the
function). -/
def runTestResult (probe : ProbeOutcome) : Except PyErr TestResult :=
  match probe with
  | .timeout => .ok sentinel
  | .calledProcessError => .ok sentinel
  | .output raw =>
    if is_json raw then
      match raw with
      | .valid data =>
        match parseAttempt data with
        | .ok r => .ok r
        | .error .keyError => .ok sentinel
        | .error .typeError => .ok sentinel
        | .error .valueError => .error .valueError
        | .error .attributeError => .error .attributeError
      | _ => .ok sentinel
    else
      .ok sentinel

/-- runTest from the source, paired with the number of child processes the
call spawns: when the shutdown event is set, it returns the zero tuple
immediately at function entry without calling subprocess.check_output;
otherwise exactly one child process is spawned and its outcome processed. -/
def runTestFull (shutdown : Bool) (probe : ProbeOutcome) :
    Except PyErr TestResult × ℕ :=
  if shutdown then (.ok sentinel, 0) else (runTestResult probe, 1)

/-- The value runTest returns (first component of runTestFull). -/
def runTest (shutdown : Bool) (probe : ProbeOutcome) : Except PyErr TestResult :=
  (runTestFull shutdown probe).1

/-- The six prometheus gauges (server, jitter, ping, download_speed,
upload_speed, up), holding the values last passed to Gauge.set. -/
structure Gauges where
  server : JVal
  jitter : JVal
  ping : JVal
  download_speed : JVal
  upload_speed : JVal
  up : JVal

/-- Gauge state at process start: prometheus gauges initialize to 0. -/
def initGauges : Gauges :=
  ⟨.jnum 0, .jnum 0, .jnum 0, .jnum 0, .jnum 0, .jnum 0⟩

/-- The six Gauge.set calls of updateResults applied to a runTest tuple. -/
def publish (r : TestResult) : Gauges :=
  ⟨r.server, r.jitter, r.ping, r.download, r.upload, r.status⟩

/-- The mutable process state of the exporter: the cache_until timestamp, the
gauge values, and (as an observation for the theorems) how many child
processes have been spawned so far. At process start cache_until is the epoch
(datetime.fromtimestamp(0), modelled as 0) and the gauges are 0. -/
structure ExpState where
  cache_until : ℚ
  gauges : Gauges
  spawned : ℕ

/-- updateResults from the source, for one /metrics request. tCheck is the
value of the first datetime.now() call (used in the staleness comparison) and
tStore the value of the second one (taken after the measurement, when the new
cache_until is stored); on a fresh read (tCheck not after cache_until) nothing
happens; an exception escaping runTest aborts the handler. -/
def updateResults (cache_seconds : ℤ) (shutdown : Bool) (probe : ProbeOutcome)
    (tCheck tStore : ℚ) (s : ExpState) : Except PyErr ExpState :=
  if tCheck > s.cache_until then
    match runTestFull shutdown probe with
    | (.ok r, n) =>
      .ok { cache_until := tStore + (cache_seconds : ℚ),
            gauges := publish r,
            spawned := s.spawned + n }
    | (.error e, _) => .error e
  else
    .ok s

/-- A sequence of sequential /metrics requests: each list entry is the probe
outcome and the two clock readings of one updateResults call. -/
def runCalls (cache_seconds : ℤ) (shutdown : Bool) :
    List (ProbeOutcome × ℚ × ℚ) → ExpState → Except PyErr ExpState
  | [], s => .ok s
  | (probe, tCheck, tStore) :: rest, s =>
    match updateResults cache_seconds shutdown probe tCheck tStore s with
    | .ok s1 => runCalls cache_seconds shutdown rest s1
    | .error e => .error e

/-- Progress of one waitress worker thread (the server runs 4 of them) through
the body of updateResults: before its staleness check, decided to measure,
holding a runTest result not yet stored, or done with the request. -/
inductive Phase where
  | ready
  | willRun
  | ran (r : TestResult)
  | finished

/-- Shared exporter state plus the phases of two concurrent worker threads
each executing updateResults. -/
structure CState where
  shared : ExpState
  p0 : Phase
  p1 : Phase

/-- One atomic statement of a thread inside updateResults: its staleness check
(at some clock reading), its runTest call, or its write of the gauges and of
the new cache_until. The source takes no lock around this sequence, so
statements of different threads may interleave in any order; modelling the
gauge writes and the cache_until store as one atomic action only
under-approximates the possible interleavings. -/
inductive CAct where
  | check0 (t : ℚ)
  | check1 (t : ℚ)
  | run0 (probe : ProbeOutcome)
  | run1 (probe : ProbeOutcome)
  | store0 (t : ℚ)
  | store1 (t : ℚ)

/-- Effect of one atomic statement on the shared state and thread phases. An
action whose thread is not at the matching phase is a no-op (the schedule is
then not executing that thread's next statement). A thread whose runTest
raises terminates its request without storing. -/
def cstep (cache_seconds : ℤ) (σ : CState) (a : CAct) : CState :=
  match a with
  | .check0 t =>
    match σ.p0 with
    | .ready =>
      { σ with p0 := if t > σ.shared.cache_until then .willRun else .finished }
    | _ => σ
  | .check1 t =>
    match σ.p1 with
    | .ready =>
      { σ with p1 := if t > σ.shared.cache_until then .willRun else .finished }
    | _ => σ
  | .run0 probe =>
    match σ.p0 with
    | .willRun =>
      match runTestFull false probe with
      | (.ok r, n) =>
        { σ with p0 := .ran r,
                 shared := { σ.shared with spawned := σ.shared.spawned + n } }
      | (.error _, n) =>
        { σ with p0 := .finished,
                 shared := { σ.shared with spawned := σ.shared.spawned + n } }
    | _ => σ
  | .run1 probe =>
    match σ.p1 with
    | .willRun =>
      match runTestFull false probe with
      | (.ok r, n) =>
        { σ with p1 := .ran r,
                 shared := { σ.shared with spawned := σ.shared.spawned + n } }
      | (.error _, n) =>
        { σ with p1 := .finished,
                 shared := { σ.shared with spawned := σ.shared.spawned + n } }
    | _ => σ
  | .store0 t =>
    match σ.p0 with
    | .ran r =>
      let sh := { σ.shared with gauges := publish r, cache_until := t + (cache_seconds : ℚ) }
      { σ with p0 := .finished, shared := sh }
    | _ => σ
  | .store1 t =>
    match σ.p1 with
    | .ran r =>
      let sh := { σ.shared with gauges := publish r, cache_until := t + (cache_seconds : ℚ) }
      { σ with p1 := .finished, shared := sh }
    | _ => σ

/-- Run a whole interleaving (a list of atomic statements from the two
threads). -/
def execSchedule (cache_seconds : ℤ) (σ : CState) : List CAct → CState
  | [] => σ
  | a :: rest => execSchedule cache_seconds (cstep cache_seconds σ a) rest

/-- The five failure kinds of the error taxonomy, as classes of probe
outcomes: Timeout; ExecutionError (non-zero exit); MalformedOutput (empty or
non-JSON stdout); DomainError (a payload carrying an "error" member); and
IncompleteResult (a decoded payload that is not a completed "result", or
whose examination raises one of the exceptions the except clause of runTest
catches, i.e. a missing key or a wrong-typed field). -/
inductive FailureOutcome : ProbeOutcome → Prop where
  | timeout : FailureOutcome .timeout
  | execError : FailureOutcome .calledProcessError
  | malformedEmpty : FailureOutcome (.output .empty)
  | malformedInvalid : FailureOutcome (.output .invalid)
  | domainError (data : JVal) :
      pyContains data "error" = .ok true →
      FailureOutcome (.output (.valid data))
  | nonResult (data typeVal : JVal) :
      pyContains data "error" = .ok false →
      pyGet data "type" = .ok typeVal →
      eqStr typeVal "result" = false →
      FailureOutcome (.output (.valid data))
  | incomplete (data : JVal) (e : PyErr) :
      parseAttempt data = .error e →
      e = .keyError ∨ e = .typeError →
      FailureOutcome (.output (.valid data))

/-- A well-formed successful speedtest result payload, as decoded from
`{"type":"result","server":{"id":sid},"ping":{"jitter":j,"latency":l},
"download":{"bandwidth":db},"upload":{"bandwidth":ub}}`. -/
def resultPayload (sid : ℤ) (jitterMs latencyMs downloadBw uploadBw : ℚ) : JVal :=
  .jobj [("type", .jstr "result"),
         ("server", .jobj [("id", .jnum (sid : ℚ))]),
         ("ping", .jobj [("jitter", .jnum jitterMs),
                         ("latency", .jnum latencyMs)]),
         ("download", .jobj [("bandwidth", .jnum downloadBw)]),
         ("upload", .jobj [("bandwidth", .jnum uploadBw)])]

/-- A decoded result payload whose server id is the non-numeric string "abc":
`{"type":"result","server":{"id":"abc"}}`. -/
def badServerIdPayload : JVal :=
  .jobj [("type", .jstr "result"),
         ("server", .jobj [("id", .jstr "abc")])]

/-- Python int() truncation is the identity on integers. -/
theorem truncInt_intCast (n : ℤ) : truncInt (n : ℚ) = n := by
  simp [truncInt, Rat.num_intCast, Rat.den_intCast]

/-- C3: the claim says parsing is total — a non-integer-convertible server id
yields the failed sentinel rather than raising past the parse boundary — and
the except clause of runTest, which logs and absorbs extraction errors,
clearly intends that. But the clause catches only KeyError and TypeError, so
the ValueError raised by `int` on the decoded payload
`{"type":"result","server":{"id":"abc"}}` escapes runTest: the code
contradicts the intended totality. This theorem evaluates the embedded
runTest at that failing input. -/
theorem parse_raises_valueError_on_nonint_server_id :
    runTest false (.output (.valid badServerIdPayload)) = .error .valueError := rfl

/-- C9: once the shutdown flag is set, runTest returns the failed sentinel at
function entry, for every possible probe outcome, and spawns no child process
(spawn count 0). -/
theorem shutdown_short_circuit (probe : ProbeOutcome) :
    runTestFull true probe = (.ok sentinel, 0) := rfl

/-- C5: for every successful result payload, the server id is converted to an
integer, jitter and ping pass through unchanged, and the byte/s bandwidths
are multiplied by 8 exactly; in particular the payload
`{"type":"result","server":{"id":12345},"ping":{"jitter":1.5,"latency":10.2},
"download":{"bandwidth":12500000},"upload":{"bandwidth":1250000}}` parses to
(12345, 1.5, 10.2, 100000000, 10000000, success). -/
theorem unit_conversion_and_result_mapping :
    (∀ (sid : ℤ) (jitterMs latencyMs downloadBw uploadBw : ℚ),
      runTest false
          (.output (.valid (resultPayload sid jitterMs latencyMs downloadBw uploadBw))) =
        .ok ⟨.jnum (sid : ℚ), .jnum jitterMs, .jnum latencyMs,
             .jnum (downloadBw * 8), .jnum (uploadBw * 8), .jnum 1⟩) ∧
    runTest false (.output (.valid (resultPayload 12345 1.5 10.2 12500000 1250000))) =
      .ok ⟨.jnum 12345, .jnum 1.5, .jnum 10.2, .jnum 100000000,
           .jnum 10000000, .jnum 1⟩ := by
  have hgen : ∀ (sid : ℤ) (jitterMs latencyMs downloadBw uploadBw : ℚ),
      runTest false
          (.output (.valid (resultPayload sid jitterMs latencyMs downloadBw uploadBw))) =
        .ok ⟨.jnum (sid : ℚ), .jnum jitterMs, .jnum latencyMs,
             .jnum (downloadBw * 8), .jnum (uploadBw * 8), .jnum 1⟩ := by
    intro sid jitterMs latencyMs downloadBw uploadBw
    simp [runTest, runTestFull, runTestResult, is_json, parseAttempt, extractResult,
          pyContains, pyGet, pySub, pyLookup, pyInt, bytes_to_bits, eqStr,
          resultPayload, truncInt_intCast, sentinel]
  refine ⟨hgen, ?_⟩
  have h := hgen 12345 1.5 10.2 12500000 1250000
  rw [h]
  norm_num

/-- C2: for every failure kind of the error taxonomy (Timeout, ExecutionError,
MalformedOutput, DomainError, IncompleteResult), runTest returns the sentinel
(0, 0, 0, 0, 0, success = 0), and a stale /metrics request publishing it
leaves the up gauge 0 and all other gauges 0. -/
theorem failure_sentinel_invariant (probe : ProbeOutcome)
    (hf : FailureOutcome probe) :
    runTest false probe = .ok sentinel ∧
    ∀ (cache_seconds : ℤ) (tCheck tStore : ℚ) (s : ExpState),
      tCheck > s.cache_until →
      updateResults cache_seconds false probe tCheck tStore s =
        .ok ⟨tStore + (cache_seconds : ℚ),
             ⟨.jnum 0, .jnum 0, .jnum 0, .jnum 0, .jnum 0, .jnum 0⟩,
             s.spawned + 1⟩ := by
  have hrun : runTestResult probe = .ok sentinel := by
    cases hf with
    | timeout => rfl
    | execError => rfl
    | malformedEmpty => rfl
    | malformedInvalid => rfl
    | domainError data h =>
      simp [runTestResult, is_json, parseAttempt, h]
    | nonResult data typeVal h1 h2 h3 =>
      simp [runTestResult, is_json, parseAttempt, h1, h2, h3]
    | incomplete data e h he =>
      rcases he with he | he <;> subst he <;> simp [runTestResult, is_json, h]
  refine ⟨by simp [runTest, runTestFull, hrun], ?_⟩
  intro cache_seconds tCheck tStore s h
  simp [updateResults, h, runTestFull, hrun, publish, sentinel]

/-- Witness for C2: a payload of type "result" missing its server member (an
IncompleteResult) yields the sentinel, and a stale request at check time 5,
store time 7, with cache duration 60 publishes all-zero gauges with up = 0. -/
theorem failure_sentinel_invariant_witness :
    runTest false (.output (.valid (JVal.jobj [("type", JVal.jstr "result")]))) =
      .ok sentinel ∧
    updateResults 60 false (.output (.valid (JVal.jobj [("type", JVal.jstr "result")])))
        5 7 ⟨0, initGauges, 0⟩ =
      .ok ⟨67, ⟨.jnum 0, .jnum 0, .jnum 0, .jnum 0, .jnum 0, .jnum 0⟩, 1⟩ := by
  have h := failure_sentinel_invariant
    (.output (.valid (JVal.jobj [("type", JVal.jstr "result")])))
    (FailureOutcome.incomplete _ .keyError rfl (Or.inl rfl))
  refine ⟨h.1, ?_⟩
  have h2 := h.2 60 5 7 ⟨0, initGauges, 0⟩ (by norm_num)
  rw [h2]
  norm_num

/-- C4 (amended): a /metrics read at a check time not after cache_until is
fresh — the state is returned unchanged, nothing is spawned — and a read
strictly after cache_until is stale and triggers exactly one measurement:
Fresh iff now ≤ validUntil and Stale iff now > validUntil. (The claim's other
half, that a read at exactly validUntil is treated as stale, is refuted by
the counterexample below.) -/
theorem cache_expiry_boundary (cache_seconds : ℤ) (probe : ProbeOutcome)
    (tCheck tStore : ℚ) (s : ExpState) (r : TestResult)
    (hr : runTestResult probe = .ok r) :
    (tCheck ≤ s.cache_until →
      updateResults cache_seconds false probe tCheck tStore s = .ok s) ∧
    (tCheck > s.cache_until →
      updateResults cache_seconds false probe tCheck tStore s =
        .ok ⟨tStore + (cache_seconds : ℚ), publish r, s.spawned + 1⟩) := by
  constructor
  · intro h
    simp [updateResults, not_lt.mpr h]
  · intro h
    simp [updateResults, h, runTestFull, hr]

/-- Witness for C4: with cache_until = 100, a read at 99 is fresh and leaves
the state untouched, while a read at 101 spawns one measurement and stores
a new entry. -/
theorem cache_expiry_boundary_witness :
    updateResults 60 false (.output .invalid) 99 99 ⟨100, initGauges, 0⟩ =
      .ok ⟨100, initGauges, 0⟩ ∧
    updateResults 60 false (.output .invalid) 101 103 ⟨100, initGauges, 0⟩ =
      .ok ⟨163, publish sentinel, 1⟩ := by
  refine ⟨(cache_expiry_boundary 60 (.output .invalid) 99 99 ⟨100, initGauges, 0⟩
    sentinel rfl).1 (by norm_num), ?_⟩
  have h := (cache_expiry_boundary 60 (.output .invalid) 101 103 ⟨100, initGauges, 0⟩
    sentinel rfl).2 (by norm_num)
  rw [h]
  norm_num

/-- Counterexample for C4: the claim says a read at a time exactly equal to
validUntil triggers a re-measurement; in the code the staleness test is a
strict comparison, so a read at exactly cache_until = 100 spawns nothing
(spawn count stays 0, not the 1 a triggered measurement would give). -/
theorem read_at_validUntil_is_fresh :
    (updateResults 60 false (.output .invalid) 100 100 ⟨100, initGauges, 0⟩).map
        ExpState.spawned = .ok 0 ∧
    (Except.ok 0 : Except PyErr ℕ) ≠ .ok 1 := by
  refine ⟨rfl, ?_⟩
  norm_num

/-- C6: with cacheDurationSeconds = 0, no caching occurs: two sequential
/metrics reads, the second occurring after the first call stored its entry,
each take the stale path and each spawn one probe invocation. -/
theorem zero_duration_cache_no_caching (probe1 probe2 : ProbeOutcome)
    (r1 r2 : TestResult) (t1c t1s t2c t2s : ℚ) (s : ExpState)
    (h1 : t1c > s.cache_until)
    (hr1 : runTestResult probe1 = .ok r1)
    (h2 : t2c > t1s)
    (hr2 : runTestResult probe2 = .ok r2) :
    updateResults 0 false probe1 t1c t1s s =
      .ok ⟨t1s, publish r1, s.spawned + 1⟩ ∧
    updateResults 0 false probe2 t2c t2s ⟨t1s, publish r1, s.spawned + 1⟩ =
      .ok ⟨t2s, publish r2, s.spawned + 2⟩ := by
  constructor
  · simp [updateResults, h1, runTestFull, hr1]
  · simp [updateResults, h2, runTestFull, hr2]

/-- Witness for C6: from the initial state, reads at times 1 and 3 with zero
cache duration spawn one probe each (spawn count 5 grows to 6 then 7). -/
theorem zero_duration_cache_no_caching_witness :
    updateResults 0 false .timeout 1 2 ⟨0, initGauges, 5⟩ =
      .ok ⟨2, publish sentinel, 6⟩ ∧
    updateResults 0 false (.output .empty) 3 4 ⟨2, publish sentinel, 6⟩ =
      .ok ⟨4, publish sentinel, 7⟩ := by
  have h := zero_duration_cache_no_caching .timeout (.output .empty)
    sentinel sentinel 1 2 3 4 ⟨0, initGauges, 5⟩
    (by norm_num) rfl (by norm_num) rfl
  refine ⟨by rw [h.1], by rw [h.2]⟩

/-- C7: any sequence of /metrics reads whose check times all lie within the
current validity window returns the stored state bit-identically: no child
process is spawned and cache_until and all six gauges are unchanged. -/
theorem fresh_reads_are_noops (cache_seconds : ℤ) (shutdown : Bool)
    (calls : List (ProbeOutcome × ℚ × ℚ)) (s : ExpState)
    (h : ∀ c ∈ calls, c.2.1 ≤ s.cache_until) :
    runCalls cache_seconds shutdown calls s = .ok s := by
  induction calls with
  | nil => rfl
  | cons c rest ih =>
    obtain ⟨probe, tc, ts⟩ := c
    have hc : tc ≤ s.cache_until := h _ (List.mem_cons_self _ _)
    have h1 : updateResults cache_seconds shutdown probe tc ts s = .ok s := by
      simp [updateResults, not_lt.mpr hc]
    simp only [runCalls, h1]
    exact ih (fun c hc2 => h c (List.mem_cons_of_mem _ hc2))

/-- Witness for C7: two reads at times 5 and 7 against an entry valid until
10 leave the state unchanged. -/
theorem fresh_reads_are_noops_witness :
    runCalls 60 false [(.timeout, 5, 6), (.output .invalid, 7, 8)]
        ⟨10, initGauges, 0⟩ = .ok ⟨10, initGauges, 0⟩ := by
  apply fresh_reads_are_noops
  intro c hc
  simp only [List.mem_cons, List.not_mem_nil, or_false] at hc
  rcases hc with rfl | rfl <;> norm_num

/-- C8 (amended): on every stale read, regardless of the measurement outcome
(success or failed sentinel), the cache stores the new result and sets
validUntil = tStore + cacheDurationSeconds, where tStore is the second clock
reading, taken after the measurement completes — not the timestamp at which
the stale read checked the cache (refuted by the counterexample below). A
failed measurement is cached for the full configured duration just like a
success. -/
theorem stale_read_caches_any_outcome_from_store_time (cache_seconds : ℤ)
    (probe : ProbeOutcome) (tCheck tStore : ℚ) (s : ExpState) (r : TestResult)
    (hstale : tCheck > s.cache_until) (hr : runTestResult probe = .ok r) :
    (updateResults cache_seconds false probe tCheck tStore s).map
        ExpState.cache_until = .ok (tStore + (cache_seconds : ℚ)) ∧
    (updateResults cache_seconds false probe tCheck tStore s).map
        ExpState.gauges = .ok (publish r) := by
  constructor <;> simp [updateResults, hstale, runTestFull, hr, Except.map]

/-- Witness for C8: a failed probe (non-JSON output) on a stale read at check
time 1, store time 2, cache duration 60 is cached until 62 with the sentinel
gauges published, exactly like a success would be. -/
theorem stale_read_caches_any_outcome_witness :
    (updateResults 60 false (.output .invalid) 1 2 ⟨0, initGauges, 0⟩).map
        ExpState.cache_until = .ok 62 ∧
    (updateResults 60 false (.output .invalid) 1 2 ⟨0, initGauges, 0⟩).map
        ExpState.gauges = .ok (publish sentinel) := by
  have h := stale_read_caches_any_outcome_from_store_time 60 (.output .invalid)
    1 2 ⟨0, initGauges, 0⟩ sentinel (by norm_num) rfl
  refine ⟨?_, h.2⟩
  rw [h.1]
  norm_num

/-- Counterexample for C8: the claim says validUntil = now + cacheDuration
with now the timestamp of the stale read. With the stale check at time 10,
the measurement finishing at time 50 and a 60 second cache duration, the code
stores cache_until = 110 (measured from the second clock reading), not the
70 the claim requires. -/
theorem validUntil_not_from_check_time :
    (updateResults 60 false (.output .invalid) 10 50 ⟨0, initGauges, 0⟩).map
        ExpState.cache_until = .ok 110 ∧
    (Except.ok (110 : ℚ) : Except PyErr ℚ) ≠ .ok 70 := by
  constructor
  · norm_num [updateResults, runTestFull, runTestResult, is_json, Except.map]
  · norm_num

/-- C10: if the shutdown flag is set when a stale read occurs, the
short-circuit sentinel is still published to all six gauges — overwriting any
previously cached values with zeros and up = 0 — and a new
validUntil = tStore + cacheDurationSeconds is stored, while no child process
is spawned. -/
theorem shutdown_sentinel_published_and_cached (cache_seconds : ℤ)
    (probe : ProbeOutcome) (tCheck tStore : ℚ) (s : ExpState)
    (hstale : tCheck > s.cache_until) :
    updateResults cache_seconds true probe tCheck tStore s =
      .ok ⟨tStore + (cache_seconds : ℚ),
           ⟨.jnum 0, .jnum 0, .jnum 0, .jnum 0, .jnum 0, .jnum 0⟩,
           s.spawned⟩ := by
  simp [updateResults, hstale, runTestFull, publish, sentinel]

/-- Witness for C10: a stale read under shutdown overwrites previously cached
non-zero gauge values with zeros, stores cache_until = 6 + 60 = 66 and leaves
the spawn count at 3. -/
theorem shutdown_sentinel_published_and_cached_witness :
    updateResults 60 true .timeout 5 6
        ⟨0, ⟨.jnum 7, .jnum 1, .jnum 2, .jnum 3, .jnum 4, .jnum 1⟩, 3⟩ =
      .ok ⟨66, ⟨.jnum 0, .jnum 0, .jnum 0, .jnum 0, .jnum 0, .jnum 0⟩, 3⟩ := by
  have h := shutdown_sentinel_published_and_cached 60 .timeout 5 6
    ⟨0, ⟨.jnum 7, .jnum 1, .jnum 2, .jnum 3, .jnum 4, .jnum 1⟩, 3⟩ (by norm_num)
  rw [h]
  norm_num

/-- C1 (amended): the code takes no lock, so the exactly-one-probe guarantee
holds only when the concurrent stale calls happen to be serialized: then the
first stale call spawns exactly one probe, stores its result, and a second
call whose check falls inside the new window spawns nothing and reads the
same published gauges. Interleaved stale calls can each spawn a probe
(counterexample below). -/
theorem exactly_one_probe_only_when_serialized (cache_seconds : ℤ) (cu0 : ℚ)
    (g0 : Gauges) (n0 : ℕ) (t1 t1' t2 t2' : ℚ)
    (probe1 probe2 : ProbeOutcome) (r : TestResult)
    (h1 : t1 > cu0) (hr : runTestResult probe1 = .ok r)
    (h2 : t2 ≤ t1' + (cache_seconds : ℚ)) :
    execSchedule cache_seconds ⟨⟨cu0, g0, n0⟩, .ready, .ready⟩
        [.check0 t1, .run0 probe1, .store0 t1', .check1 t2,
         .run1 probe2, .store1 t2'] =
      ⟨⟨t1' + (cache_seconds : ℚ), publish r, n0 + 1⟩, .finished, .finished⟩ := by
  simp [execSchedule, cstep, runTestFull, hr, h1, not_lt.mpr h2]

/-- Witness for C1 (amended): serialized execution of two stale requests with
a 300 second cache spawns exactly one probe. -/
theorem exactly_one_probe_only_when_serialized_witness :
    execSchedule 300 ⟨⟨0, initGauges, 0⟩, .ready, .ready⟩
        [.check0 1, .run0 (.output .invalid), .store0 2, .check1 3,
         .run1 (.output .invalid), .store1 4] =
      ⟨⟨302, publish sentinel, 1⟩, .finished, .finished⟩ := by
  have h := exactly_one_probe_only_when_serialized 300 0 initGauges 0 1 2 3 4
    (.output .invalid) (.output .invalid) sentinel (by norm_num) rfl (by norm_num)
  rw [h]
  norm_num

/-- Counterexample for C1: the claim says N concurrent stale reads cause
exactly one probe invocation, the stale-check-store sequence being atomic. In
the unlocked code, the interleaving in which both threads pass their staleness
check (both at time 1, cache stale since 0) before either stores spawns two
child processes, not one. -/
theorem concurrent_stale_reads_spawn_two_probes :
    (execSchedule 300 ⟨⟨0, initGauges, 0⟩, .ready, .ready⟩
        [.check0 1, .check1 1, .run0 (.output .invalid), .store0 2,
         .run1 (.output .invalid), .store1 3]).shared.spawned = 2 ∧
    (2 : ℕ) ≠ 1 := by
  refine ⟨rfl, ?_⟩
  norm_num

end SpeedtestExporter
